import Mathlib

/-!
Verification of the ad-campaign budget pacer repository.

The repository consists of a FastAPI catalog/admin service (`src/api/main.py`),
a mock pacer service (`src/api-mock/main.py`) and operational scripts.  The
definitions below are shallow embeddings of the Python functions these claims
cite; money is integer cents, and the Python float arithmetic of the mock's
status computation is embedded over `ℚ` (the fractions involved, 0.8 / 0.2 /
0.95, are modelled exactly as 4/5, 1/5, 19/20).  Fallible Python code (an
uncaught `ZeroDivisionError`) is embedded with `Option`.
-/

namespace BudgetPacer

/-! ### Mock pacer service: `src/api-mock/main.py`

`get_budget_status` (lines 75–98) reads a campaign, draws a random
`spent ∈ [30000, 90000]`, and returns a status dictionary.  We embed the
response computation as a pure function of the campaign's
`daily_budget_cents` and of the drawn `spent` value.  Python raises
`ZeroDivisionError` on `spent / daily_budget_cents` when the budget is zero,
so the embedding returns `none` in exactly that case. -/

/-- A budget-status response of the mock service (the dictionary literal at
`src/api-mock/main.py:89-98`).  Float-valued fields are embedded as `ℚ`. -/
structure MockStatusResp where
  campaign_id : String
  daily_budget_cents : Int
  daily_spent_cents : Nat
  hourly_spent_cents : Nat
  pace_percentage : ℚ
  should_throttle : Bool
  throttle_rate : ℚ
  circuit_breaker_open : Bool
  deriving Repr, DecidableEq

/-- The response dictionary of `get_budget_status`, as a function of the
campaign's `daily_budget_cents` (`B`) and the drawn `spent` (`S`):
`hourly_spent_cents = spent // 24`,
`pace_percentage = (spent / B) * 100`,
`should_throttle = spent > B * 0.8`,
`throttle_rate = max(0, (spent / B - 0.8) / 0.2)`,
`circuit_breaker_open = spent > B * 0.95`. -/
def mockStatusDict (cid : String) (B : Int) (S : Nat) : MockStatusResp :=
  { campaign_id := cid
    daily_budget_cents := B
    daily_spent_cents := S
    hourly_spent_cents := S / 24
    pace_percentage := ((S : ℚ) / (B : ℚ)) * 100
    should_throttle := decide ((B : ℚ) * (4/5) < (S : ℚ))
    throttle_rate := max 0 (((S : ℚ) / (B : ℚ) - 4/5) / (1/5))
    circuit_breaker_open := decide ((B : ℚ) * (19/20) < (S : ℚ)) }

/-- `get_budget_status` of the mock, for a campaign already in
`campaigns_db` with budget `B`, at the random draw `S`.  Python evaluates
`spent / campaign.get("daily_budget_cents", 100000)` and raises
`ZeroDivisionError` when `B = 0`; that fault is `none`. -/
def mockBudgetStatus (cid : String) (B : Int) (S : Nat) : Option MockStatusResp :=
  if B = 0 then none else some (mockStatusDict cid B S)

/-- A campaign record of the mock's `campaigns_db` (only the fields the
status endpoint reads; `get_budget_status` accesses `daily_budget_cents`
with default 100000, which is present on every stored record). -/
structure MockCampaign where
  id : String
  name : String
  daily_budget_cents : Int
  status : String
  deriving Repr, DecidableEq

/-- The default campaign that `get_budget_status` inserts into
`campaigns_db` for an unknown id (`src/api-mock/main.py:79-84`). -/
def mockDefaultCampaign (cid : String) : MockCampaign :=
  { id := cid
    name := "Campaign " ++ cid
    daily_budget_cents := 100000
    status := "ACTIVE" }

/-- The full endpoint `GET /budget/status/{campaign_id}` of the mock:
if the id is absent from `campaigns_db` it first inserts the default
campaign, then computes the status from the (now present) record.
Returns the updated store together with the response (`none` = the
handler raised). -/
def mockGetBudgetStatus (db : List (String × MockCampaign)) (cid : String)
    (S : Nat) : List (String × MockCampaign) × Option MockStatusResp :=
  let db' := if (db.lookup cid).isSome then db
             else (cid, mockDefaultCampaign cid) :: db
  match db'.lookup cid with
  | some camp => (db', mockBudgetStatus cid camp.daily_budget_cents S)
  | none => (db', none)

end BudgetPacer

namespace BudgetPacer

/-! ### Claims C1, C2, C4, C5 — the mock status computation -/

/-- C1 as stated is false on the code: the mock computes
`circuit_breaker_open = spent > B * 0.95` with a strict inequality, so at
exactly `S = 0.95 · B` (budget 100000, spent 95000) the breaker is reported
closed. -/
theorem c1_counterexample :
    (mockBudgetStatus "camp" 100000 95000).map
      (fun r => r.circuit_breaker_open) = some false := by
  simp only [mockBudgetStatus, mockStatusDict, if_false]
  norm_num

/-- C1 amended: for every campaign with positive daily budget `B` and every
spent value `S`, if `S` strictly exceeds `0.95 · B` then the budget status
reports the circuit breaker as open. -/
theorem c1_breaker_open_of_strict (B : Int) (S : Nat) (hB : 0 < B)
    (hS : (B : ℚ) * (19/20) < (S : ℚ)) :
    (mockBudgetStatus "camp" B S).map
      (fun r => r.circuit_breaker_open) = some true := by
  have hB0 : B ≠ 0 := by omega
  simp [mockBudgetStatus, hB0, mockStatusDict, hS]

/-- Witness for C1's amended theorem at budget 100000, spent 95001. -/
theorem c1_witness :
    (mockBudgetStatus "camp" 100000 95001).map
      (fun r => r.circuit_breaker_open) = some true :=
  c1_breaker_open_of_strict 100000 95001 (by decide) (by norm_num)

/-- C2 as stated is false on the code: the mock computes
`throttle_rate = max(0, (S/B - 0.8) / 0.2)` with no upper clamp, so at
budget 100000 and spent 200000 the reported throttle rate is 6 > 1. -/
theorem c2_counterexample :
    (mockBudgetStatus "camp" 100000 200000).map
      (fun r => decide (r.throttle_rate ≤ 1)) = some false := by
  simp only [mockBudgetStatus, mockStatusDict, if_false]
  norm_num

/-- C2 amended: the reported throttle rate is always non-negative, and it
lies in `[0, 1]` whenever the spent value does not exceed the (positive)
daily budget; beyond the budget it grows without bound because the code
applies `max` with 0 but no upper clamp. -/
theorem c2_throttle_bounds (B : Int) (S : Nat) (hB : 0 < B) :
    ∀ r ∈ mockBudgetStatus "camp" B S,
      0 ≤ r.throttle_rate ∧ ((S : ℚ) ≤ (B : ℚ) → r.throttle_rate ≤ 1) := by
  have hB0 : B ≠ 0 := by omega
  have hBQ : (0 : ℚ) < (B : ℚ) := by exact_mod_cast hB
  intro r hr
  simp only [mockBudgetStatus, hB0, if_false, Option.mem_def,
    Option.some.injEq] at hr
  subst hr
  refine ⟨le_max_left _ _, fun hSB => ?_⟩
  simp only [mockStatusDict, max_le_iff]
  constructor
  · norm_num
  · rw [div_le_iff₀ (by norm_num), sub_le_iff_le_add]
    calc (S : ℚ) / (B : ℚ) ≤ 1 := by
          rw [div_le_one hBQ]; exact hSB
      _ ≤ 1 * (1/5) + 4/5 := by norm_num

/-- Witness for C2's amended theorem at budget 100000, spent 90000. -/
theorem c2_witness :
    0 ≤ (mockStatusDict "camp" 100000 90000).throttle_rate ∧
    (mockStatusDict "camp" 100000 90000).throttle_rate ≤ 1 := by
  have h := c2_throttle_bounds 100000 90000 (by decide)
    (mockStatusDict "camp" 100000 90000)
    (by simp [mockBudgetStatus])
  exact ⟨h.1, h.2 (by norm_num)⟩

/-- C4: at `daily_budget_cents = 0` the mock's status computation divides
`spent` by the zero budget and raises `ZeroDivisionError` (an unhandled
500), instead of the total `BUDGET_EXHAUSTED` deny the specification
requires.  The embedding evaluates the handler at the failing input. -/
theorem c4_zero_budget_faults :
    mockBudgetStatus "camp" 0 50000 = none := by
  decide

/-- C5 as stated is false on the code: the mock reports a single hourly
figure `spent // 24`, and `24 · (spent // 24) = spent` fails whenever 24
does not divide `spent`; at budget 100000, spent 30001 the daily figure is
30001 but the 24 hourly shares sum to 30000. -/
theorem c5_counterexample :
    (mockBudgetStatus "camp" 100000 30001).map
      (fun r => decide (r.daily_spent_cents =
        24 * r.hourly_spent_cents)) = some false := by
  decide

/-- C5 amended: for every positive budget and every spent value `S`, the
reported daily spend and the sum of the 24 equal hourly shares differ by
exactly `S % 24`, so the claimed equality holds precisely when 24 divides
the spent value. -/
theorem c5_daily_vs_hourly (B : Int) (S : Nat) (hB : 0 < B) :
    ∀ r ∈ mockBudgetStatus "camp" B S,
      r.daily_spent_cents = 24 * r.hourly_spent_cents + S % 24 ∧
      (r.daily_spent_cents = 24 * r.hourly_spent_cents ↔ 24 ∣ S) := by
  have hB0 : B ≠ 0 := by omega
  intro r hr
  simp only [mockBudgetStatus, hB0, if_false, Option.mem_def,
    Option.some.injEq] at hr
  subst hr
  simp only [mockStatusDict]
  constructor
  · omega
  · constructor
    · intro h
      exact Dvd.intro (S / 24) (by omega)
    · intro h
      omega

/-- Witness for C5's amended theorem at budget 100000, spent 30000. -/
theorem c5_witness :
    (mockStatusDict "camp" 100000 30000).daily_spent_cents =
      24 * (mockStatusDict "camp" 100000 30000).hourly_spent_cents := by
  have h := c5_daily_vs_hourly 100000 30000 (by decide)
    (mockStatusDict "camp" 100000 30000)
    (by simp [mockBudgetStatus])
  exact h.2.mpr (by decide)

/-! ### Catalog/admin API service: `src/api/main.py`

The service keeps campaigns in a `campaigns` SQL table keyed by `id`
(primary key: duplicate inserts raise `UniqueViolationError`) and a redis
cache holding `campaigns:{id}` entries plus `budget:*` counters.  We embed
the table as an association list of rows and redis as association lists;
`redis.delete(k₁, k₂, …)` removes exactly the literal keys given. -/

/-- The pydantic `Campaign` model (`src/api/main.py:14-22`).  Timestamps
are opaque integers. -/
structure Campaign where
  id : String
  name : String
  daily_budget_cents : Int
  total_budget_cents : Option Int
  start_date : Int
  end_date : Int
  pacing_mode : String
  status : String
  deriving Repr, DecidableEq

/-- A row of the `campaigns` table: the `Campaign` columns plus
`updated_at`. -/
structure CampaignRow where
  camp : Campaign
  updated_at : Int
  deriving Repr, DecidableEq

/-- The mutable state the endpoints touch: the `campaigns` table and the
redis cache of `campaigns:{id}` entries. -/
structure ApiState where
  db : List CampaignRow
  cache : List (String × Campaign)
  deriving Repr, DecidableEq

/-- An HTTP error response (`HTTPException`). -/
structure HttpErr where
  status_code : Nat
  detail : String
  deriving Repr, DecidableEq

/-- `redis.delete` on an association-list cache: removes exactly the
entries whose key is literally equal to one of the arguments (redis does
no glob expansion in `DEL`). -/
def redisDelete {V : Type} (cache : List (String × V)) (keys : List String) :
    List (String × V) :=
  cache.filter (fun kv => !(keys.contains kv.1))

/-- `POST /campaigns` (`src/api/main.py:87-103`): inserts the row, raising
400 only on a duplicate id; there is no validation of
`daily_budget_cents` or `pacing_mode`.  Returns the new state and the
response. -/
def createCampaign (s : ApiState) (c : Campaign) (now : Int) :
    ApiState × Except HttpErr Campaign :=
  if (s.db.find? (fun r => r.camp.id == c.id)).isSome then
    (s, Except.error ⟨400, "Campaign ID already exists"⟩)
  else
    ({ db := s.db ++ [⟨c, now⟩],
       cache := redisDelete s.cache ["campaigns:" ++ c.id] },
     Except.ok c)

/-- The valid pacing modes of `POST /pacing/mode`
(`src/api/main.py:205`). -/
def validModes : List String := ["EVEN", "ASAP", "FRONT_LOADED", "ADAPTIVE"]

/-- The body of `POST /pacing/mode`. -/
structure PacingModeUpdate where
  campaign_id : String
  pacing_mode : String
  deriving Repr, DecidableEq

/-- SQL `UPDATE campaigns SET … WHERE id = $1`: applies `f` to every row
whose id matches. -/
def updateRows (db : List CampaignRow) (cid : String)
    (f : CampaignRow → CampaignRow) : List CampaignRow :=
  db.map (fun r => if r.camp.id == cid then f r else r)

/-- `POST /pacing/mode` (`src/api/main.py:203-221`): rejects a mode outside
`validModes` with 400 before touching any state; otherwise updates the
row (404 if absent) and invalidates the cache entry. -/
def updatePacingMode (s : ApiState) (u : PacingModeUpdate) (now : Int) :
    ApiState × Except HttpErr String :=
  if !(validModes.contains u.pacing_mode) then
    (s, Except.error ⟨400, "Invalid pacing mode"⟩)
  else if (s.db.find? (fun r => r.camp.id == u.campaign_id)).isNone then
    (s, Except.error ⟨404, "Campaign not found"⟩)
  else
    ({ db := updateRows s.db u.campaign_id
         (fun r => { camp := { r.camp with pacing_mode := u.pacing_mode },
                     updated_at := now }),
       cache := redisDelete s.cache ["campaigns:" ++ u.campaign_id] },
     Except.ok "Pacing mode updated successfully")

/-- `DELETE /campaigns/{campaign_id}` (`src/api/main.py:166-180`): 404 if
no row matches, otherwise `UPDATE campaigns SET status = DELETED,
updated_at = now WHERE id = $1` and cache invalidation — the row is not
removed. -/
def deleteCampaign (s : ApiState) (cid : String) (now : Int) :
    ApiState × Except HttpErr String :=
  if (s.db.find? (fun r => r.camp.id == cid)).isNone then
    (s, Except.error ⟨404, "Campaign not found"⟩)
  else
    ({ db := updateRows s.db cid
         (fun r => { camp := { r.camp with status := "DELETED" },
                     updated_at := now }),
       cache := redisDelete s.cache ["campaigns:" ++ cid] },
     Except.ok "Campaign deleted successfully")

/-- `GET /campaigns/{campaign_id}` (`src/api/main.py:122-144`): serves from
the `campaigns:{id}` cache if present; otherwise selects the row by id
(with no status filter), returning 404 only when no row exists, and
caches the result. -/
def getCampaign (s : ApiState) (cid : String) :
    ApiState × Except HttpErr Campaign :=
  match s.cache.lookup ("campaigns:" ++ cid) with
  | some c => (s, Except.ok c)
  | none =>
    match s.db.find? (fun r => r.camp.id == cid) with
    | none => (s, Except.error ⟨404, "Campaign not found"⟩)
    | some row =>
      ({ db := s.db, cache := ("campaigns:" ++ cid, row.camp) :: s.cache },
       Except.ok row.camp)

/-- `POST /budget/reset/{campaign_id}` (`src/api/main.py:397-410`): calls
`redis.delete` with the two literal strings `budget:day:{id}:*` and
`budget:hour:{id}:*` as key names. -/
def resetCampaignBudget (budgetCache : List (String × Int)) (cid : String) :
    List (String × Int) :=
  redisDelete budgetCache
    ["budget:day:" ++ cid ++ ":*", "budget:hour:" ++ cid ++ ":*"]

/-- A concrete create request carrying a negative daily budget and an
unknown pacing mode. -/
def badCampaign : Campaign :=
  { id := "camp-bad"
    name := "Bad"
    daily_budget_cents := -1
    total_budget_cents := none
    start_date := 0
    end_date := 0
    pacing_mode := "BOGUS"
    status := "ACTIVE" }

/-- C6 as stated is false on the code: `POST /campaigns` performs no
validation, so a campaign with `daily_budget_cents = -1` and pacing mode
`BOGUS` is accepted (200, row inserted) rather than rejected with a 4xx
and no state change. -/
theorem c6_counterexample :
    (createCampaign ⟨[], []⟩ badCampaign 0).2 = Except.ok badCampaign ∧
    (createCampaign ⟨[], []⟩ badCampaign 0).1.db = [⟨badCampaign, 0⟩] := by
  constructor <;> rfl

/-- C6 amended: `POST /pacing/mode` does reject a pacing mode outside
{EVEN, ASAP, FRONT_LOADED, ADAPTIVE} with 400 and no state change, but
`POST /campaigns` accepts any fresh-id campaign — a negative
`daily_budget_cents` or unknown `pacing_mode` included — with 200. -/
theorem c6_boundary_validation (s : ApiState) (u : PacingModeUpdate)
    (c : Campaign) (now : Int)
    (hu : validModes.contains u.pacing_mode = false)
    (hc : s.db.find? (fun r => r.camp.id == c.id) = none) :
    updatePacingMode s u now = (s, Except.error ⟨400, "Invalid pacing mode"⟩) ∧
    (createCampaign s c now).2 = Except.ok c := by
  constructor
  · unfold updatePacingMode
    simp only [hu, Bool.not_false]
    rfl
  · simp [createCampaign, hc]

/-- Witness for C6's amended theorem on the empty state, mode `BOGUS`. -/
theorem c6_witness :
    updatePacingMode ⟨[], []⟩ ⟨"camp-bad", "BOGUS"⟩ 0 =
      (⟨[], []⟩, Except.error ⟨400, "Invalid pacing mode"⟩) ∧
    (createCampaign ⟨[], []⟩ badCampaign 0).2 = Except.ok badCampaign :=
  c6_boundary_validation ⟨[], []⟩ ⟨"camp-bad", "BOGUS"⟩ badCampaign 0
    (by rfl) (by rfl)

/-- C7: the budget reset passes the wildcard strings as literal key names
to `redis.delete`, so persisted per-day and per-hour keys of the campaign
survive the reset — evaluated here on a cache holding one day key and one
hour key for campaign `c1`. -/
theorem c7_wildcard_delete_misses_keys :
    (resetCampaignBudget
        [("budget:day:c1:2026-10-12", 500), ("budget:hour:c1:2026-10-12:07", 40)]
        "c1").lookup "budget:day:c1:2026-10-12" = some 500 ∧
    (resetCampaignBudget
        [("budget:day:c1:2026-10-12", 500), ("budget:hour:c1:2026-10-12:07", 40)]
        "c1").lookup "budget:hour:c1:2026-10-12:07" = some 40 := by
  constructor <;> rfl

/-- Finding by id after an id-preserving SQL update returns the updated
first match. -/
theorem find_updateRows_self (db : List CampaignRow) (cid : String)
    (f : CampaignRow → CampaignRow) (hf : ∀ r, (f r).camp.id = r.camp.id)
    (row : CampaignRow) (h : db.find? (fun r => r.camp.id == cid) = some row) :
    (updateRows db cid f).find? (fun r => r.camp.id == cid) = some (f row) := by
  induction db with
  | nil => simp at h
  | cons r rest ih =>
    rcases hr : (r.camp.id == cid) with _ | _
    · simp only [List.find?, hr] at h
      simp only [updateRows, List.map_cons, hr, Bool.false_eq_true, if_false]
      simp only [updateRows] at ih
      simp only [List.find?, hr]
      exact ih h
    · simp only [List.find?, hr] at h
      have hrow : r = row := by simpa using h
      subst hrow
      have hfb : ((f r).camp.id == cid) = true := by
        have := hf r
        simp [this]
        simpa using hr
      simp only [updateRows, List.map_cons, hr, if_true]
      simp only [List.find?, hfb]

/-- Looking up a deleted key after `redis.delete` yields nothing. -/
theorem lookup_redisDelete_removed {V : Type} (cache : List (String × V))
    (keys : List String) (k : String) (hk : keys.contains k = true) :
    (redisDelete cache keys).lookup k = none := by
  induction cache with
  | nil => rfl
  | cons kv rest ih =>
    obtain ⟨k1, v1⟩ := kv
    rcases hkey : keys.contains k1 with _ | _
    · have hne : (k == k1) = false := by
        rcases hbe : (k == k1) with _ | _
        · rfl
        · have heq : k = k1 := by simpa using hbe
          rw [← heq, hk] at hkey
          exact Bool.noConfusion hkey
      simp only [redisDelete] at ih ⊢
      simp only [List.filter_cons, hkey, Bool.not_false, if_true]
      simp only [List.lookup, hne]
      exact ih
    · simp only [redisDelete] at ih ⊢
      simp only [List.filter_cons, hkey, Bool.not_true, Bool.false_eq_true,
        if_false]
      exact ih

/-- C10: `DELETE /campaigns/{id}` on an existing campaign is a soft
delete — it rewrites only `status` (to DELETED) and `updated_at`, keeping
every other field, and a subsequent `GET /campaigns/{id}` still returns
the campaign with 200 rather than 404. -/
theorem c10_soft_delete (s : ApiState) (cid : String) (now : Int)
    (row : CampaignRow)
    (h : s.db.find? (fun r => r.camp.id == cid) = some row) :
    (deleteCampaign s cid now).2 = Except.ok "Campaign deleted successfully" ∧
    ((deleteCampaign s cid now).1.db.find? (fun r => r.camp.id == cid)) =
      some ⟨{ row.camp with status := "DELETED" }, now⟩ ∧
    (getCampaign (deleteCampaign s cid now).1 cid).2 =
      Except.ok { row.camp with status := "DELETED" } := by
  have hsome : (s.db.find? (fun r => r.camp.id == cid)).isNone = false := by
    rw [h]; rfl
  have hfind := find_updateRows_self s.db cid
    (fun r => { camp := { r.camp with status := "DELETED" }, updated_at := now })
    (fun r => rfl) row h
  refine ⟨?_, ?_, ?_⟩
  · simp [deleteCampaign, hsome]
  · simpa [deleteCampaign, hsome] using hfind
  · have hcache : ((deleteCampaign s cid now).1.cache.lookup
        ("campaigns:" ++ cid)) = none := by
      simp only [deleteCampaign, hsome, Bool.false_eq_true, if_false]
      exact lookup_redisDelete_removed s.cache ["campaigns:" ++ cid]
        ("campaigns:" ++ cid) (by simp)
    simp only [getCampaign, hcache]
    simp only [deleteCampaign, hsome, Bool.false_eq_true, if_false] at hfind ⊢
    rw [hfind]

/-- A concrete stored campaign used by witnesses. -/
def sampleRow : CampaignRow :=
  { camp :=
      { id := "camp-001"
        name := "Test Campaign 1"
        daily_budget_cents := 1000000
        total_budget_cents := some 30000000
        start_date := 100
        end_date := 200
        pacing_mode := "EVEN"
        status := "ACTIVE" }
    updated_at := 3 }

/-- Witness for C10 on a one-row table with an empty cache. -/
theorem c10_witness :
    (deleteCampaign ⟨[sampleRow], []⟩ "camp-001" 7).2 =
      Except.ok "Campaign deleted successfully" ∧
    ((deleteCampaign ⟨[sampleRow], []⟩ "camp-001" 7).1.db.find?
        (fun r => r.camp.id == "camp-001")) =
      some ⟨{ sampleRow.camp with status := "DELETED" }, 7⟩ ∧
    (getCampaign (deleteCampaign ⟨[sampleRow], []⟩ "camp-001" 7).1
        "camp-001").2 =
      Except.ok { sampleRow.camp with status := "DELETED" } :=
  c10_soft_delete ⟨[sampleRow], []⟩ "camp-001" 7 sampleRow (by rfl)

/-! ### `POST /pacing/simulate` (`src/api/main.py:318-351`)

The handler walks `hours_ahead` hours, using `traffic_pattern[hour]` when
present and `1.0` otherwise, spending `min(B/24 · multiplier, remaining)`
each hour.  We embed the float arithmetic over `ℚ`; `int()` truncation of
the non-negative remaining equals the floor. -/

/-- The simulation loop of `simulate_pacing`: from `remaining`, produce the
per-hour `(projected_spend, remaining_budget)` rows for `n` more hours
starting at `hour`, together with the final remaining budget.  An absent
or exhausted `traffic_pattern` contributes multiplier 1, exactly as
`traffic_pattern[hour] if hour < len(traffic_pattern) else 1.0` (and as the
`[1.0] * hours_ahead` default). -/
def simLoop (B : ℚ) (pattern : List ℚ) : Nat → Nat → ℚ → List (ℚ × ℚ) × ℚ
  | 0, _, r => ([], r)
  | n + 1, hour, r =>
    let s := min (B / 24 * pattern.getD hour 1) r
    let rest := simLoop B pattern n (hour + 1) (r - s)
    ((s, r - s) :: rest.1, rest.2)

/-- `simulate_pacing` for a campaign with daily budget `B`: the simulation
rows and `total_projected_spend = B - int(remaining)`. -/
def simulatePacing (B : Int) (pattern : List ℚ) (hoursAhead : Nat) :
    List (ℚ × ℚ) × Int :=
  ((simLoop (B : ℚ) pattern hoursAhead 0 (B : ℚ)).1,
   B - ⌊(simLoop (B : ℚ) pattern hoursAhead 0 (B : ℚ)).2⌋)

/-- The per-hour invariants of a simulation run started at remaining
budget `prev`: every hour spends a non-negative amount bounded by the
remaining budget before that hour, and the remaining budget decreases by
exactly the spend while staying non-negative. -/
def simChain : ℚ → List (ℚ × ℚ) → Prop
  | _, [] => True
  | prev, (s, r) :: rest =>
    0 ≤ s ∧ s ≤ prev ∧ r = prev - s ∧ 0 ≤ r ∧ simChain r rest

/-- A traffic multiplier read with default 1 from a non-negative pattern
is non-negative. -/
theorem getD_one_nonneg (pattern : List ℚ) (hp : ∀ m ∈ pattern, 0 ≤ m)
    (i : Nat) : 0 ≤ pattern.getD i 1 := by
  induction pattern generalizing i with
  | nil => simp [List.getD]
  | cons a t ih =>
    cases i with
    | zero => simpa using hp a (by simp)
    | succ j =>
      simp only [List.getD_cons_succ]
      exact ih (fun m hm => hp m (by simp [hm])) j

/-- The simulation loop satisfies the chain invariant from any
non-negative starting budget, and its final remaining budget is
non-negative. -/
theorem simLoop_chain (B : ℚ) (pattern : List ℚ) (hB : 0 ≤ B)
    (hp : ∀ m ∈ pattern, 0 ≤ m) :
    ∀ (n hour : Nat) (r : ℚ), 0 ≤ r →
      simChain r (simLoop B pattern n hour r).1 ∧
      0 ≤ (simLoop B pattern n hour r).2 := by
  intro n
  induction n with
  | zero => exact fun hour r hr => ⟨trivial, hr⟩
  | succ n ih =>
    intro hour r hr
    have hm : 0 ≤ pattern.getD hour 1 := getD_one_nonneg pattern hp hour
    have hhb : 0 ≤ B / 24 * pattern.getD hour 1 :=
      mul_nonneg (div_nonneg hB (by norm_num)) hm
    have hs0 : 0 ≤ min (B / 24 * pattern.getD hour 1) r := le_min hhb hr
    have hsr : min (B / 24 * pattern.getD hour 1) r ≤ r := min_le_right _ _
    have hr' : 0 ≤ r - min (B / 24 * pattern.getD hour 1) r :=
      sub_nonneg.mpr hsr
    have hrec := ih (hour + 1) (r - min (B / 24 * pattern.getD hour 1) r) hr'
    exact ⟨⟨hs0, hsr, rfl, hr', hrec.1⟩, hrec.2⟩

/-- C8: for a campaign with non-negative daily budget and a traffic
pattern of non-negative multipliers, the pacing simulation keeps the
remaining budget non-negative and non-increasing (it drops by exactly
each hour's spend), no hour's projected spend exceeds the remaining
budget before that hour, and the total projected spend never exceeds the
daily budget. -/
theorem c8_simulation_invariants (B : Int) (pattern : List ℚ)
    (hoursAhead : Nat) (hB : 0 ≤ B) (hp : ∀ m ∈ pattern, 0 ≤ m) :
    simChain (B : ℚ) (simulatePacing B pattern hoursAhead).1 ∧
    (simulatePacing B pattern hoursAhead).2 ≤ B := by
  have hBQ : (0 : ℚ) ≤ (B : ℚ) := by exact_mod_cast hB
  have h := simLoop_chain (B : ℚ) pattern hBQ hp hoursAhead 0 (B : ℚ) hBQ
  refine ⟨h.1, ?_⟩
  have hfl : 0 ≤ ⌊(simLoop (B : ℚ) pattern hoursAhead 0 (B : ℚ)).2⌋ :=
    Int.floor_nonneg.mpr h.2
  simp only [simulatePacing]
  omega

/-- Witness for C8 at budget 240000, pattern `[2, 0]`, three hours. -/
theorem c8_witness :
    simChain ((240000 : Int) : ℚ) (simulatePacing 240000 [2, 0] 3).1 ∧
    (simulatePacing 240000 [2, 0] 3).2 ≤ 240000 :=
  c8_simulation_invariants 240000 [2, 0] 3 (by decide)
    (by intro m hm; simp only [List.mem_cons, List.not_mem_nil,
          or_false] at hm; rcases hm with rfl | rfl <;> norm_num)

/-! ### EVEN pacing policy (spec §4.3)

The decision engine that computes the time-proportional EVEN throttle is
the pacer service, which is not part of this repository's sources (the
API service only proxies `GET /budget/status` to it, and the mock replaces
it with a flat 80%-of-budget formula). -/

/-- Modelled from the spec: `OVERSHOOT_CAP` (default 1.5); the pacer
service implementing it is absent from the sources. -/
def overshootCap : ℚ := 3 / 2

/-- Modelled from the spec: the EVEN pacing-policy throttle (§4.3); the
pacer service implementing it is absent from the sources.  With
`target = B · (h/24)`: 0 if `S ≤ target`, 1 if `S ≥ target ·
overshoot_cap`, otherwise `(S/target − 1) / (overshoot_cap − 1)`. -/
def evenThrottle (B S h : ℚ) : ℚ :=
  let target := B * (h / 24)
  if S ≤ target then 0
  else if target * overshootCap ≤ S then 1
  else (S / target - 1) / (overshootCap - 1)

/-- A decision reason (spec §3, `DecisionResult`). -/
inductive Reason where
  | OK | THROTTLED | CIRCUIT_OPEN | BUDGET_EXHAUSTED
  | INACTIVE | UNKNOWN_CAMPAIGN | PAUSED
  deriving Repr, DecidableEq

/-- A decision result (spec §3). -/
structure DecisionResult where
  allow_bid : Bool
  throttle_rate : ℚ
  reason : Reason
  deriving Repr, DecidableEq

/-- Modelled from the spec: steps 6–7 of `Decide` (§4.5) for an ACTIVE
EVEN campaign whose circuit breaker is CLOSED; the pacer service
implementing it is absent from the sources.  `u` is the caller-supplied
RNG draw in `[0, 1)`; the bid is denied `THROTTLED` when the draw falls
below the throttle. -/
def evenDecide (B S h u : ℚ) : DecisionResult :=
  let t := evenThrottle B S h
  if u < t then ⟨false, t, Reason.THROTTLED⟩ else ⟨true, t, Reason.OK⟩

/-- C3: the EVEN throttle is computed against the time-proportional
target `B · (h/24)`: it is 0 when `S ≤ target`, 1 when `S ≥ 1.5 ·
target` (at a positive hour), and linear in between; in particular with
`B = 240000` at local hour 12 and prior spend `S = 180000` the throttle
is 1 and every Bernoulli draw denies the bid as THROTTLED. -/
theorem c3_even_policy (B S h u : ℚ) (hB : 0 < B) (hh : 0 < h)
    (_hu0 : 0 ≤ u) (hu1 : u < 1) :
    (S ≤ B * (h / 24) → evenThrottle B S h = 0) ∧
    (B * (h / 24) * overshootCap ≤ S → evenThrottle B S h = 1) ∧
    (B * (h / 24) < S → S < B * (h / 24) * overshootCap →
      evenThrottle B S h = (S / (B * (h / 24)) - 1) / (overshootCap - 1)) ∧
    (evenThrottle 240000 180000 12 = 1 ∧
     evenDecide 240000 180000 12 u =
       ⟨false, 1, Reason.THROTTLED⟩) := by
  have htpos : 0 < B * (h / 24) := by positivity
  have hthr : evenThrottle 240000 180000 12 = 1 := by
    norm_num [evenThrottle, overshootCap]
  refine ⟨?_, ?_, ?_, hthr, ?_⟩
  · intro hle
    simp [evenThrottle, hle]
  · intro hge
    have hlt : B * (h / 24) < S := by
      have : B * (h / 24) < B * (h / 24) * overshootCap := by
        rw [overshootCap]; nlinarith
      linarith
    have hnle : ¬ S ≤ B * (h / 24) := not_le.mpr hlt
    simp [evenThrottle, hnle, hge]
  · intro h1 h2
    have hnle : ¬ S ≤ B * (h / 24) := not_le.mpr h1
    have hnge : ¬ B * (h / 24) * overshootCap ≤ S := not_le.mpr h2
    simp [evenThrottle, hnle, hnge]
  · rw [evenDecide]
    simp only [hthr]
    rw [if_pos hu1]

/-- Witness for C3 at `B = 240000`, `S = 180000`, `h = 12`, RNG draw
`u = 1/2`. -/
theorem c3_witness :
    (180000 ≤ (240000 : ℚ) * (12 / 24) →
        evenThrottle 240000 180000 12 = 0) ∧
    ((240000 : ℚ) * (12 / 24) * overshootCap ≤ 180000 →
        evenThrottle 240000 180000 12 = 1) ∧
    ((240000 : ℚ) * (12 / 24) < 180000 →
        (180000 : ℚ) < 240000 * (12 / 24) * overshootCap →
        evenThrottle 240000 180000 12 =
          (180000 / (240000 * (12 / 24)) - 1) / (overshootCap - 1)) ∧
    (evenThrottle 240000 180000 12 = 1 ∧
     evenDecide 240000 180000 12 (1 / 2) =
       ⟨false, 1, Reason.THROTTLED⟩) :=
  c3_even_policy 240000 180000 12 (1 / 2) (by norm_num) (by norm_num)
    (by norm_num) (by norm_num)

/-- C9: the mock's `GET /budget/status/{campaign_id}` never fails for an
unknown id: it inserts the default campaign (daily budget 100000, status
ACTIVE) and returns a 200 response, so the unknown-campaign error branch is
unreachable at this endpoint. -/
theorem c9_unknown_id_inserts_default (db : List (String × MockCampaign))
    (cid : String) (S : Nat) (h : db.lookup cid = none) :
    (mockGetBudgetStatus db cid S).1.lookup cid =
      some (mockDefaultCampaign cid) ∧
    (mockDefaultCampaign cid).daily_budget_cents = 100000 ∧
    (mockDefaultCampaign cid).status = "ACTIVE" ∧
    (mockGetBudgetStatus db cid S).2 =
      some (mockStatusDict cid 100000 S) := by
  simp [mockGetBudgetStatus, h, mockBudgetStatus, mockDefaultCampaign]

/-- Witness for C9 on the empty store at id `camp-x`, spent 40000. -/
theorem c9_witness :
    (mockGetBudgetStatus [] "camp-x" 40000).1.lookup "camp-x" =
      some (mockDefaultCampaign "camp-x") ∧
    (mockDefaultCampaign "camp-x").daily_budget_cents = 100000 ∧
    (mockDefaultCampaign "camp-x").status = "ACTIVE" ∧
    (mockGetBudgetStatus [] "camp-x" 40000).2 =
      some (mockStatusDict "camp-x" 100000 40000) :=
  c9_unknown_id_inserts_default [] "camp-x" 40000 (by rfl)

end BudgetPacer
